import Mathlib

set_option linter.unusedVariables false

/-!
Verification of the traffic-flow Q-learning repository
(src/project/src/simulation/qlearning.py, standard_simulation.py,
src/project/src/utils/comparison.py, grid_search.py, sumo_utils.py).

The Python code is shallowly embedded: floats are modelled by ℚ, the
Q-table dictionary by an association list, the bounded deque by a list
with explicit eviction, and the process-wide random draws by oracle
parameters constrained by hypotheses (randint n yields a value < n;
numpy choice over a softmax distribution yields an index < n, every
index having strictly positive probability since exp is positive).
-/

namespace QL

/-- Discretized state tuple returned by get_state: a tuple of Python ints. -/
abbrev St : Type := List ℤ

/-- A transition (state, action, reward, next_state) as stored in the
experience buffer (qlearning.py line 159). -/
structure Transition where
  s : St
  a : ℕ
  r : ℚ
  s2 : St
deriving DecidableEq

/-- The Q-table: Python dict keyed by (state, action), modelled as an
association list; absent keys read as 0 (qlearning.py lines 149, 168-169). -/
abbrev QTable : Type := List ((St × ℕ) × ℚ)

/-- Dictionary read with default 0: q_table.get((s, a), 0). -/
def qlookup (q : QTable) (k : St × ℕ) : ℚ :=
  match q.find? (fun e => decide (e.1 = k)) with
  | some e => e.2
  | none => 0

/-- Dictionary assignment q_table[(s, a)] = v: replace the binding if the
key is present, otherwise add it. -/
def qset (q : QTable) (k : St × ℕ) (v : ℚ) : QTable :=
  if q.any (fun e => decide (e.1 = k)) then
    q.map (fun e => if e.1 = k then (k, v) else e)
  else
    q ++ [(k, v)]

/-- Appending to a collections.deque with maxlen = cap: when the deque is
full the oldest (leftmost) element is evicted (qlearning.py line 45). -/
def dequeAppend (cap : ℕ) (buf : List α) (x : α) : List α :=
  if buf.length < cap then buf ++ [x]
  else buf.drop (buf.length + 1 - cap) ++ [x]

/-- Agent state: the attributes set by TrafficLightQLearning.__init__
(qlearning.py lines 30-58).  experience_size and batch_size are always
2000 and 64 (lines 38-39); the phase objects only matter through
len(self.phases), so phases is a list of opaque phase ids. -/
structure TrafficLightQLearning where
  tl_id : String
  phases : List ℕ
  controlled_lanes : List String
  alpha : ℚ
  gamma : ℚ
  epsilon : ℚ
  min_epsilon : ℚ
  epsilon_decay : ℚ
  experience_size : ℕ
  batch_size : ℕ
  q_table : QTable
  experience : List Transition
  steps_since_last_change : ℕ
  temperature : ℚ
  min_temperature : ℚ
  temperature_decay : ℚ

/-- TrafficLightQLearning.__init__ (qlearning.py lines 30-58): stores the
hyperparameters, fixes experience_size = 2000 and batch_size = 64, starts
with an empty Q-table and experience buffer, step counter 0, temperature
1.0 with floor 0.1 and decay 0.995.  The caller-supplied controlled_lanes
argument is overwritten by the environment lookup get_controlled_lanes
(line 56), passed here as lanesOf. -/
def mkAgent (lanesOf : String → List String) (tl_id : String) (phases : List ℕ)
    (controlled_lanes : List String) (alpha : ℚ := 1/10) (gamma : ℚ := 9/10)
    (epsilon : ℚ := 1/5) (min_epsilon : ℚ := 1/100)
    (epsilon_decay : ℚ := 199/200) : TrafficLightQLearning :=
  { tl_id := tl_id
    phases := phases
    controlled_lanes := lanesOf tl_id
    alpha := alpha
    gamma := gamma
    epsilon := epsilon
    min_epsilon := min_epsilon
    epsilon_decay := epsilon_decay
    experience_size := 2000
    batch_size := 64
    q_table := []
    experience := []
    steps_since_last_change := 0
    temperature := 1
    min_temperature := 1/10
    temperature_decay := 199/200 }

/-- Q-learning update applied to one sampled transition (qlearning.py
lines 166-172): old = q_table.get((s, a), 0); next_max = max over next-state
actions (missing entries 0); q_table[(s, a)] = old + α (r + γ next_max − old).
Python max([...]) over the action range; phase lists are nonempty in every
use (max would raise on an empty list, modelled by default 0 here). -/
def applyUpdate (nPhases : ℕ) (alpha gamma : ℚ) (q : QTable) (t : Transition) :
    QTable :=
  let old := qlookup q (t.s, t.a)
  let nexts := (List.range nPhases).map (fun a2 => qlookup q (t.s2, a2))
  let next_max : ℚ :=
    match nexts with
    | [] => 0
    | x :: xs => xs.foldl max x
  qset q (t.s, t.a) (old + alpha * (t.r + gamma * next_max - old))

/-- random.sample(experience, batch_size) modelled by the list of sampled
positions (an oracle for the process-wide random stream); validity of a
sample (length = batch_size, no duplicate positions, positions in range)
is imposed as hypotheses on the theorems. -/
def sampleBatch (buf : List Transition) (idxs : List ℕ) : List Transition :=
  idxs.filterMap (fun i => buf.get? i)

/-- TrafficLightQLearning.update_q_table (qlearning.py lines 154-175):
append the transition to the experience deque; if the buffer now holds at
least batch_size transitions, sample a batch and apply the Q-learning
update to each sampled transition in order (the loop at lines 166-172
mutates q_table as it goes, so later updates see earlier ones);
unconditionally increment the step counter. -/
def update_q_table (ag : TrafficLightQLearning) (t : Transition)
    (idxs : List ℕ) : TrafficLightQLearning :=
  { ag with
    experience := dequeAppend ag.experience_size ag.experience t
    q_table :=
      if ag.batch_size ≤ (dequeAppend ag.experience_size ag.experience t).length then
        (sampleBatch (dequeAppend ag.experience_size ag.experience t) idxs).foldl
          (applyUpdate ag.phases.length ag.alpha ag.gamma) ag.q_table
      else ag.q_table
    steps_since_last_change := ag.steps_since_last_change + 1 }

/-- A sequence of update_q_table calls, each with its transition and its
sample-position oracle. -/
def runUpdates (ag : TrafficLightQLearning) :
    List (Transition × List ℕ) → TrafficLightQLearning
  | [] => ag
  | (t, idxs) :: rest => runUpdates (update_q_table ag t idxs) rest

/-- Per-vehicle telemetry visible to the agent: traci.vehicle.getSpeed and
traci.vehicle.getWaitingTime. -/
structure Vehicle where
  speed : ℚ
  waitingTime : ℚ

/-- The environment telemetry snapshot the agent reads through traci:
per-lane vehicle lists, halting counts, mean speeds and last-step vehicle
counts (qlearning.py lines 74, 85, 89, 124). -/
structure Env where
  laneVehicles : String → List Vehicle
  laneHaltingNumber : String → ℕ
  laneMeanSpeed : String → ℚ
  laneVehicleNumber : String → ℕ

/-- Python int(x): truncation toward zero, used to discretize the state
tuple (qlearning.py line 96). -/
def intTrunc (q : ℚ) : ℤ :=
  if 0 ≤ q then ⌊q⌋ else ⌈q⌉

/-- TrafficLightQLearning.get_state (qlearning.py lines 60-97): for each
controlled lane, the number of vehicles with speed below 0.1, the mean
waiting time over the lane's vehicles (denominator max(len, 1)), the
halting count and the mean speed; then the step counter; every component
truncated to an int.  Read-only: the agent is not modified. -/
def get_state (env : Env) (ag : TrafficLightQLearning) : St :=
  let perLane : List ℚ := ag.controlled_lanes.foldl (fun acc lane =>
    let vehicles := env.laneVehicles lane
    let waiting : ℚ := (vehicles.filter (fun v => decide (v.speed < 1/10))).length
    let waiting_time : ℚ :=
      (vehicles.map (fun v => v.waitingTime)).sum / (max vehicles.length 1 : ℕ)
    let queue_length : ℚ := env.laneHaltingNumber lane
    let speed : ℚ := env.laneMeanSpeed lane
    acc ++ [waiting, waiting_time, queue_length, speed]) []
  (perLane ++ [(ag.steps_since_last_change : ℚ)]).map intTrunc

/-- TrafficLightQLearning.get_reward (qlearning.py lines 99-131), a direct
transcription: a first loop over the controlled lanes subtracts 0.1 per
stalled vehicle (speed < 0.1) and, for each vehicle whose waiting time
exceeds 30, a further 0.01 times that waiting time; a second loop adds 0.2
times each lane's last-step vehicle count; finally 0.5 is subtracted when
the step counter is below 10.  Read-only: the agent is not modified. -/
def get_reward (env : Env) (ag : TrafficLightQLearning) : ℚ :=
  let r1 : ℚ := ag.controlled_lanes.foldl (fun acc lane =>
    let vehicles := env.laneVehicles lane
    let waiting : ℚ := (vehicles.filter (fun v => decide (v.speed < 1/10))).length
    let acc2 := acc - waiting * (1/10)
    vehicles.foldl (fun a v =>
      if v.waitingTime > 30 then a - v.waitingTime * (1/100) else a) acc2) 0
  let r2 : ℚ := ag.controlled_lanes.foldl (fun acc lane =>
    acc + (env.laneVehicleNumber lane : ℚ) * (2/10)) r1
  if ag.steps_since_last_change < 10 then r2 - 1/2 else r2

/-- Reward formula as the specification words it: one sum over the
controlled lanes of (−0.1 × stalled count − 0.01 × each waiting time over
30 + 0.2 × lane throughput count), plus a flat −0.5 exactly when the step
counter is below 10. -/
def rewardSpec (env : Env) (ag : TrafficLightQLearning) : ℚ :=
  (ag.controlled_lanes.map (fun lane =>
    let vehicles := env.laneVehicles lane
    (-(1/10) * ((vehicles.filter (fun v => decide (v.speed < 1/10))).length : ℚ)
      + (vehicles.map (fun v =>
          if v.waitingTime > 30 then -(1/100) * v.waitingTime else 0)).sum
      + (2/10) * (env.laneVehicleNumber lane : ℚ)))).sum
  + (if ag.steps_since_last_change < 10 then -(1/2) else 0)

/-- Epsilon and temperature decay performed at the start of every
choose_action call (qlearning.py lines 138-142). -/
def decayStep (ag : TrafficLightQLearning) : TrafficLightQLearning :=
  { ag with
    epsilon := max ag.min_epsilon (ag.epsilon * ag.epsilon_decay)
    temperature := max ag.min_temperature (ag.temperature * ag.temperature_decay) }

/-- TrafficLightQLearning.choose_action (qlearning.py lines 133-152):
decay ε and τ, then with probability ε return a uniformly random action
index, else sample an index from the softmax of the Q-values at the given
state.  The random draws come from the process-wide numpy stream and are
modelled by oracles: u is the uniform [0,1) draw of the ε gate, rExplore
the value of np.random.randint(len(phases)) (so rExplore < len(phases)),
and rBoltz the index returned by np.random.choice over the softmax
probabilities exp(q/τ)/Σexp — all strictly positive, so rBoltz can be any
index < len(phases).  These range constraints appear as hypotheses on the
theorems.  Returns the chosen index and the decayed agent. -/
def choose_action (ag : TrafficLightQLearning) (state : St) (u : ℚ)
    (rExplore rBoltz : ℕ) : ℕ × TrafficLightQLearning :=
  let ag2 := decayStep ag
  if u < ag2.epsilon then
    (rExplore, ag2)
  else
    let q_values := (List.range ag.phases.length).map
      (fun a => qlookup ag.q_table (state, a))
    (rBoltz, ag2)

/-- A sequence of choose_action calls on the same agent, each with its
state argument and random-draw oracles; returns the agent after the calls
(the chosen actions are discarded). -/
def runChoose (ag : TrafficLightQLearning) :
    List (St × ℚ × ℕ × ℕ) → TrafficLightQLearning
  | [] => ag
  | (st, u, rE, rB) :: rest => runChoose (choose_action ag st u rE rB).2 rest

end QL

namespace Orchestrator

/-- Per-vehicle telemetry row from get_vehicle_data (sumo_utils.py lines
58-73): waiting time, speed and stop state. -/
structure VehicleData where
  waiting_time : ℚ
  speed : ℚ
  stops : ℚ

/-- The running per-step totals accumulated into current_stats
(comparison.py lines 96-108; identically standard_simulation.py lines
48-67 and grid_search.py lines 77-80): summed waiting time, count of
vehicles with speed below 0.1, summed speed, summed stop counts. -/
structure CurrentStats where
  waiting_time : ℚ
  queue_length : ℕ
  speed : ℚ
  stops : ℚ
deriving DecidableEq

/-- The fold over vehicle_data building current_stats (comparison.py
lines 103-108). -/
def currentStats (vd : List VehicleData) : CurrentStats :=
  vd.foldl (fun cs d =>
    { waiting_time := cs.waiting_time + d.waiting_time
      queue_length := cs.queue_length + (if d.speed < (1/10 : ℚ) then 1 else 0)
      speed := cs.speed + d.speed
      stops := cs.stops + d.stops })
    { waiting_time := 0, queue_length := 0, speed := 0, stops := 0 }

/-- The SimulationStats accumulator (standard_simulation.py lines 12-18). -/
structure SimulationStats where
  waiting_times : List ℚ
  queue_lengths : List ℕ
  vehicle_speeds : List ℚ
  vehicle_counts : List ℕ
  stops_count : List ℚ
deriving DecidableEq

/-- Division that records a Python ZeroDivisionError as none. -/
def qdiv (a : ℚ) (n : ℕ) : Option ℚ :=
  if n = 0 then none else some (a / n)

/-- One step of the statistics aggregation (comparison.py lines 92-115;
identically standard_simulation.py lines 44-75): fold vehicle_data into
current_stats and, only when vehicle_data is nonempty, append the mean
waiting time, the queue length, the mean speed, the active-vehicle count
and the stop total; an empty snapshot appends nothing (and in particular
performs no division).  none would signal a ZeroDivisionError. -/
def stepStatsUpdate (stats : SimulationStats) (vd : List VehicleData) :
    Option SimulationStats :=
  let cs := currentStats vd
  if vd.isEmpty then some stats
  else do
    let mwt ← qdiv cs.waiting_time vd.length
    let msp ← qdiv cs.speed vd.length
    some { waiting_times := stats.waiting_times ++ [mwt]
           queue_lengths := stats.queue_lengths ++ [cs.queue_length]
           vehicle_speeds := stats.vehicle_speeds ++ [msp]
           vehicle_counts := stats.vehicle_counts ++ [vd.length]
           stops_count := stats.stops_count ++ [cs.stops] }

/-- Agent-construction loop of the qlearning branch (comparison.py lines
53-75; grid_search.py lines 37-52): for each traffic light, look up its
phases and controlled lanes; when the lane list is empty, emit a warning
and skip the intersection; otherwise construct a TrafficLightQLearning
agent for it.  Returns the agent list (in traversal order) and the list of
warned traffic-light ids. -/
def setupAgents (phasesOf : String → List ℕ) (lanesOf : String → List String) :
    List String → List (String × QL.TrafficLightQLearning) × List String
  | [] => ([], [])
  | tl_id :: rest =>
    let (ags, warns) := setupAgents phasesOf lanesOf rest
    if (lanesOf tl_id).isEmpty then
      (ags, tl_id :: warns)
    else
      ((tl_id, QL.mkAgent lanesOf tl_id (phasesOf tl_id) (lanesOf tl_id)) :: ags,
        warns)

/-- The branch taken by run_simulation's dispatch (comparison.py lines
36-38, 154-155). -/
inductive RunBranch where
  | standard
  | qlearning
deriving DecidableEq

/-- Control-flow model of run_simulation's dispatch on simulation_type
(comparison.py lines 36-40 and 154-155).  The Bool records whether an
environment session is opened: the standard branch immediately calls
run_standard_simulation, whose first action opens a SUMO session
(standard_simulation.py line 33), and the qlearning branch's first action
is likewise opening a session (comparison.py line 40); the fallback raises
ValueError without having made any environment call. -/
def run_simulation (simulation_type : String) : Bool × Except String RunBranch :=
  if simulation_type = "standard" then (true, .ok .standard)
  else if simulation_type = "qlearning" then (true, .ok .qlearning)
  else (false, .error ("Nepoznat tip simulacije: " ++ simulation_type))

end Orchestrator

namespace QL

/-- The four public operations of the agent, with their arguments and
the random-draw oracles of the stochastic ones.  get_state and get_reward
take the telemetry snapshot they read. -/
inductive AgentOp where
  | getState (env : Env)
  | getReward (env : Env)
  | chooseAction (st : St) (u : ℚ) (rExplore rBoltz : ℕ)
  | update (t : Transition) (idxs : List ℕ)

/-- Effect of one operation on the agent's attributes.  get_state
(qlearning.py lines 60-97) and get_reward (lines 99-131) only read traci
telemetry and self attributes, assigning nothing, so they leave the agent
unchanged; choose_action and update_q_table are the functions above. -/
def applyOp (ag : TrafficLightQLearning) : AgentOp → TrafficLightQLearning
  | .getState _ => ag
  | .getReward _ => ag
  | .chooseAction st u rE rB => (choose_action ag st u rE rB).2
  | .update t idxs => update_q_table ag t idxs

/-- Effect of a sequence of operations. -/
def applyOps (ag : TrafficLightQLearning) : List AgentOp → TrafficLightQLearning
  | [] => ag
  | op :: rest => applyOps (applyOp ag op) rest

/-- Concrete discretized state used by the closed sample computations. -/
def sampleState : St := [0]

/-- Concrete transition (s, a, r, s) with reward 1, as in the batch-update
scenario of the specification. -/
def sampleTransition : Transition :=
  { s := sampleState, a := 0, r := 1, s2 := sampleState }

/-- A freshly constructed agent (one phase, one lane, default
hyperparameters). -/
def sampleAgent : TrafficLightQLearning :=
  mkAgent (fun _ => ["lane0"]) "tl0" [0] ["lane0"]

/-- An agent with α = 1/2, γ = 9/10, an empty Q-table and a buffer holding
exactly 64 copies of sampleTransition: the scenario of the batch-update
test property. -/
def sampleAgentBatch : TrafficLightQLearning :=
  { mkAgent (fun _ => ["lane0"]) "tl0" [0] ["lane0"] (1/2) (9/10) with
    experience := List.replicate 64 sampleTransition }

/-- An agent whose experience buffer is full (2000 transitions). -/
def sampleAgentFull : TrafficLightQLearning :=
  { mkAgent (fun _ => ["lane0"]) "tl0" [0] ["lane0"] with
    experience := List.replicate 2000 sampleTransition }

end QL

/-!  Theorems.  -/

/-- C4: a call to update_q_table modifies the Q-table only if, after
appending the new transition, the replay buffer holds at least 64
transitions; while the post-append buffer holds fewer than 64, every
Q-table entry is left unchanged. -/
theorem update_q_table_below_batch_size_preserves_q_table
    (ag : QL.TrafficLightQLearning) (t : QL.Transition) (idxs : List ℕ)
    (hbs : ag.batch_size = 64)
    (h : (QL.dequeAppend ag.experience_size ag.experience t).length < 64) :
    (QL.update_q_table ag t idxs).q_table = ag.q_table := by
  have hn : ¬ ag.batch_size ≤
      (QL.dequeAppend ag.experience_size ag.experience t).length := by omega
  simp [QL.update_q_table, hn]

/-- Witness for C4: a freshly constructed agent (empty buffer, post-append
length 1 < 64) keeps its Q-table unchanged across an update call. -/
theorem update_q_table_below_batch_size_preserves_q_table_witness :
    QL.sampleAgent.batch_size = 64 ∧
    (QL.dequeAppend QL.sampleAgent.experience_size QL.sampleAgent.experience
      QL.sampleTransition).length < 64 ∧
    (QL.update_q_table QL.sampleAgent QL.sampleTransition []).q_table =
      QL.sampleAgent.q_table :=
  ⟨rfl, by decide,
    update_q_table_below_batch_size_preserves_q_table QL.sampleAgent
      QL.sampleTransition [] rfl (by decide)⟩

/-- C6: with a single-entry phase list, choose_action returns action index
0 on every call — for every state, every ε and τ (any agent with one
phase), and every outcome of the random draws on both the exploration and
the softmax exploitation branch. -/
theorem choose_action_single_phase_returns_zero
    (ag : QL.TrafficLightQLearning) (st : QL.St) (u : ℚ) (rE rB : ℕ)
    (hp : ag.phases.length = 1)
    (hE : rE < ag.phases.length) (hB : rB < ag.phases.length) :
    (QL.choose_action ag st u rE rB).1 = 0 := by
  have h1 : rE = 0 := by omega
  have h2 : rB = 0 := by omega
  subst h1; subst h2
  simp only [QL.choose_action]
  split <;> rfl

/-- Witness for C6: the one-phase sample agent returns action 0 for
concrete draws on either branch. -/
theorem choose_action_single_phase_returns_zero_witness :
    QL.sampleAgent.phases.length = 1 ∧ 0 < QL.sampleAgent.phases.length ∧
    (QL.choose_action QL.sampleAgent QL.sampleState 0 0 0).1 = 0 :=
  ⟨rfl, by decide,
    choose_action_single_phase_returns_zero QL.sampleAgent QL.sampleState 0 0 0
      rfl (by decide) (by decide)⟩

/-- C7: dispatching run_simulation on a selector that is neither
"standard" nor "qlearning" raises ValueError with the Croatian message of
comparison.py line 155, and no environment session has been opened. -/
theorem run_simulation_unknown_type_fails_fast (simulation_type : String)
    (h1 : simulation_type ≠ "standard") (h2 : simulation_type ≠ "qlearning") :
    Orchestrator.run_simulation simulation_type =
      (false, .error ("Nepoznat tip simulacije: " ++ simulation_type)) := by
  simp [Orchestrator.run_simulation, h1, h2]

/-- Witness for C7: the selector "foo" fails fast without a session. -/
theorem run_simulation_unknown_type_fails_fast_witness :
    "foo" ≠ "standard" ∧ "foo" ≠ "qlearning" ∧
    Orchestrator.run_simulation "foo" =
      (false, .error ("Nepoznat tip simulacije: " ++ "foo")) :=
  ⟨by decide, by decide,
    run_simulation_unknown_type_fails_fast "foo" (by decide) (by decide)⟩

/-- C10: at a step with zero active vehicles, the statistics aggregation
performs no division (no ZeroDivisionError: the result is some, not none),
the folded current_stats aggregates all default to zero, the active-vehicle
count is zero, and nothing is appended to the run statistics. -/
theorem step_stats_empty_vehicle_data (stats : Orchestrator.SimulationStats) :
    Orchestrator.stepStatsUpdate stats [] = some stats ∧
    Orchestrator.currentStats [] =
      { waiting_time := 0, queue_length := 0, speed := 0, stops := 0 } ∧
    (List.length ([] : List Orchestrator.VehicleData)) = 0 :=
  ⟨rfl, rfl, rfl⟩

/-- Helper for C8: the agent ids produced by setupAgents are exactly the
traffic lights with a nonempty lane lookup, and the warned ids exactly
those with an empty one, both in traversal order. -/
theorem setupAgents_characterization (phasesOf : String → List ℕ)
    (lanesOf : String → List String) (tls : List String) :
    (Orchestrator.setupAgents phasesOf lanesOf tls).1.map Prod.fst =
        tls.filter (fun tl_id => !(lanesOf tl_id).isEmpty) ∧
    (Orchestrator.setupAgents phasesOf lanesOf tls).2 =
        tls.filter (fun tl_id => (lanesOf tl_id).isEmpty) := by
  induction tls with
  | nil => exact ⟨rfl, rfl⟩
  | cons tl_id rest ih =>
    simp only [Orchestrator.setupAgents, List.filter_cons]
    by_cases h : (lanesOf tl_id).isEmpty <;>
      simp [h, ih.1, ih.2]

/-- C8: during qlearning setup, an intersection whose controlled-lane
lookup is empty gets no agent and is warned, while every other
intersection gets an agent; the agent ids are exactly the traffic lights
with nonempty lanes and the warned ids exactly those with empty lanes. -/
theorem setupAgents_skips_empty_lane_intersections (phasesOf : String → List ℕ)
    (lanesOf : String → List String) (tls : List String) :
    ((Orchestrator.setupAgents phasesOf lanesOf tls).1.map Prod.fst =
        tls.filter (fun tl_id => !(lanesOf tl_id).isEmpty)) ∧
    ((Orchestrator.setupAgents phasesOf lanesOf tls).2 =
        tls.filter (fun tl_id => (lanesOf tl_id).isEmpty)) ∧
    (∀ tl_id ∈ tls, (lanesOf tl_id).isEmpty →
      tl_id ∉ (Orchestrator.setupAgents phasesOf lanesOf tls).1.map Prod.fst ∧
      tl_id ∈ (Orchestrator.setupAgents phasesOf lanesOf tls).2) := by
  obtain ⟨h1, h2⟩ := setupAgents_characterization phasesOf lanesOf tls
  refine ⟨h1, h2, fun tl_id hmem hempty => ⟨?_, ?_⟩⟩
  · rw [h1]
    simp only [List.mem_filter]
    rintro ⟨-, habs⟩
    simp [hempty] at habs
  · rw [h2]
    exact List.mem_filter.mpr ⟨hmem, hempty⟩

/-- C9: update_q_table increments the step counter by exactly 1, the other
three operations leave it untouched, and over any operation sequence the
counter is monotonically non-decreasing. -/
theorem step_counter_monotone (ag : QL.TrafficLightQLearning)
    (op : QL.AgentOp) (ops : List QL.AgentOp) :
    ((QL.applyOp ag op).steps_since_last_change =
      ag.steps_since_last_change +
        (match op with | .update _ _ => 1 | _ => 0)) ∧
    ag.steps_since_last_change ≤
      (QL.applyOps ag ops).steps_since_last_change := by
  have hone : ∀ (b : QL.TrafficLightQLearning) (o : QL.AgentOp),
      (QL.applyOp b o).steps_since_last_change =
        b.steps_since_last_change +
          (match o with | .update _ _ => 1 | _ => 0) := by
    intro b o
    cases o with
    | getState env => rfl
    | getReward env => rfl
    | chooseAction st u rE rB =>
      simp only [QL.applyOp, QL.choose_action]
      split <;> rfl
    | update t idxs => rfl
  refine ⟨hone ag op, ?_⟩
  induction ops generalizing ag with
  | nil => exact le_refl _
  | cons o rest ih =>
    have h1 : ag.steps_since_last_change ≤
        (QL.applyOp ag o).steps_since_last_change := by
      rw [hone ag o]
      cases o <;> omega
    exact h1.trans (ih (QL.applyOp ag o))

/-- Helper: appending to a bounded deque that respects its capacity keeps
the length within capacity (capacity positive). -/
theorem dequeAppend_length_le {α : Type} (cap : ℕ) (buf : List α) (x : α)
    (hcap : 0 < cap) (h : buf.length ≤ cap) :
    (QL.dequeAppend cap buf x).length ≤ cap := by
  unfold QL.dequeAppend
  split <;> simp [List.length_append, List.length_drop] <;> omega

/-- Helper: update_q_table leaves the buffer capacity field unchanged. -/
theorem update_q_table_experience_size (ag : QL.TrafficLightQLearning)
    (t : QL.Transition) (idxs : List ℕ) :
    (QL.update_q_table ag t idxs).experience_size = ag.experience_size := rfl

/-- Helper: across any update sequence the buffer capacity field is
unchanged and the buffer length stays within a positive capacity. -/
theorem runUpdates_length_le (calls : List (QL.Transition × List ℕ))
    (ag : QL.TrafficLightQLearning) (hcap : 0 < ag.experience_size)
    (h : ag.experience.length ≤ ag.experience_size) :
    (QL.runUpdates ag calls).experience_size = ag.experience_size ∧
    (QL.runUpdates ag calls).experience.length ≤ ag.experience_size := by
  induction calls generalizing ag with
  | nil => exact ⟨rfl, h⟩
  | cons c rest ih =>
    obtain ⟨t, idxs⟩ := c
    have hstep : (QL.update_q_table ag t idxs).experience.length ≤
        ag.experience_size :=
      dequeAppend_length_le ag.experience_size ag.experience t hcap h
    have := ih (QL.update_q_table ag t idxs) hcap hstep
    exact ⟨this.1, this.2⟩

/-- C3: for every sequence of update_q_table calls on an agent whose
buffer capacity is 2000 (as __init__ fixes it) and whose buffer is within
capacity, the buffer length never exceeds 2000; and a call made while the
buffer is exactly full evicts the oldest (front) transition and appends
the new one at the back (FIFO). -/
theorem experience_buffer_bounded_fifo (ag : QL.TrafficLightQLearning)
    (calls : List (QL.Transition × List ℕ)) (t : QL.Transition)
    (idxs : List ℕ) (hcap : ag.experience_size = 2000)
    (hlen : ag.experience.length ≤ 2000) :
    (QL.runUpdates ag calls).experience.length ≤ 2000 ∧
    (ag.experience.length = 2000 →
      (QL.update_q_table ag t idxs).experience =
        ag.experience.drop 1 ++ [t]) := by
  constructor
  · have := runUpdates_length_le calls ag (by omega) (by omega)
    omega
  · intro hfull
    simp only [QL.update_q_table, QL.dequeAppend, hcap, hfull]
    norm_num

/-- Witness for C3: an agent whose buffer holds exactly 2000 transitions
stays within capacity after a further update call, and that call evicts
the front element. -/
theorem experience_buffer_bounded_fifo_witness :
    QL.sampleAgentFull.experience_size = 2000 ∧
    QL.sampleAgentFull.experience.length ≤ 2000 ∧
    ((QL.runUpdates QL.sampleAgentFull
        [(QL.sampleTransition, [])]).experience.length ≤ 2000 ∧
      (QL.sampleAgentFull.experience.length = 2000 →
        (QL.update_q_table QL.sampleAgentFull QL.sampleTransition
            []).experience =
          QL.sampleAgentFull.experience.drop 1 ++ [QL.sampleTransition])) :=
  ⟨rfl,
    by rw [show QL.sampleAgentFull.experience =
          List.replicate 2000 QL.sampleTransition from rfl,
        List.length_replicate],
    experience_buffer_bounded_fifo QL.sampleAgentFull
      [(QL.sampleTransition, [])] QL.sampleTransition [] rfl
      (by rw [show QL.sampleAgentFull.experience =
            List.replicate 2000 QL.sampleTransition from rfl,
          List.length_replicate])⟩

/-- Helper for C5: one decay step keeps a value between its floor and its
previous value when the floor is nonnegative, the value at least the
floor, and the decay factor at most 1. -/
theorem decay_between (floor e d : ℚ) (h0 : 0 ≤ floor) (h1 : floor ≤ e)
    (h2 : d ≤ 1) :
    floor ≤ max floor (e * d) ∧ max floor (e * d) ≤ e :=
  ⟨le_max_left _ _,
    max_le h1 (mul_le_of_le_one_right (h0.trans h1) h2)⟩

/-- Helper for C5: the agent returned by choose_action is the decayed
agent, on either branch. -/
theorem choose_action_snd (ag : QL.TrafficLightQLearning) (st : QL.St)
    (u : ℚ) (rE rB : ℕ) :
    (QL.choose_action ag st u rE rB).2 = QL.decayStep ag := by
  simp only [QL.choose_action]
  split <;> rfl

/-- Helper for C5: runChoose over an extra trailing call is one decay step
after the shorter run. -/
theorem runChoose_append_single (ag : QL.TrafficLightQLearning)
    (calls : List (QL.St × ℚ × ℕ × ℕ)) (c : QL.St × ℚ × ℕ × ℕ) :
    QL.runChoose ag (calls ++ [c]) = QL.decayStep (QL.runChoose ag calls) := by
  induction calls generalizing ag with
  | nil =>
    obtain ⟨st, u, rE, rB⟩ := c
    simp [QL.runChoose, choose_action_snd]
  | cons x rest ih =>
    obtain ⟨st, u, rE, rB⟩ := x
    simp only [List.cons_append, QL.runChoose]
    exact ih _

/-- Invariant for C5: validity of the decay configuration together with
the floor bounds, preserved by runChoose, with the configuration fields
themselves unchanged. -/
theorem runChoose_invariant (calls : List (QL.St × ℚ × ℕ × ℕ))
    (ag : QL.TrafficLightQLearning)
    (h1 : 0 ≤ ag.min_epsilon) (h2 : ag.min_epsilon ≤ ag.epsilon)
    (h3 : ag.epsilon_decay ≤ 1)
    (h4 : 0 ≤ ag.min_temperature) (h5 : ag.min_temperature ≤ ag.temperature)
    (h6 : ag.temperature_decay ≤ 1) :
    (QL.runChoose ag calls).min_epsilon = ag.min_epsilon ∧
    (QL.runChoose ag calls).epsilon_decay = ag.epsilon_decay ∧
    (QL.runChoose ag calls).min_temperature = ag.min_temperature ∧
    (QL.runChoose ag calls).temperature_decay = ag.temperature_decay ∧
    ag.min_epsilon ≤ (QL.runChoose ag calls).epsilon ∧
    ag.min_temperature ≤ (QL.runChoose ag calls).temperature := by
  induction calls generalizing ag with
  | nil => exact ⟨rfl, rfl, rfl, rfl, h2, h5⟩
  | cons c rest ih =>
    obtain ⟨st, u, rE, rB⟩ := c
    simp only [QL.runChoose, choose_action_snd]
    have heps := decay_between ag.min_epsilon ag.epsilon ag.epsilon_decay h1 h2 h3
    have htmp := decay_between ag.min_temperature ag.temperature
      ag.temperature_decay h4 h5 h6
    exact ih (QL.decayStep ag) h1 heps.1 h3 h4 htmp.1 h6

/-- C5: across any sequence of successive choose_action calls on an agent
whose decay configuration is valid (nonnegative floors, starting values at
least their floors, decay factors at most 1 — as in every constructed
configuration), ε and τ are non-increasing from each call to the next, and
after every call each remains at least its configured floor. -/
theorem epsilon_temperature_monotone (ag : QL.TrafficLightQLearning)
    (calls : List (QL.St × ℚ × ℕ × ℕ)) (c : QL.St × ℚ × ℕ × ℕ)
    (h1 : 0 ≤ ag.min_epsilon) (h2 : ag.min_epsilon ≤ ag.epsilon)
    (h3 : ag.epsilon_decay ≤ 1)
    (h4 : 0 ≤ ag.min_temperature) (h5 : ag.min_temperature ≤ ag.temperature)
    (h6 : ag.temperature_decay ≤ 1) :
    (QL.runChoose ag (calls ++ [c])).epsilon ≤ (QL.runChoose ag calls).epsilon ∧
    ag.min_epsilon ≤ (QL.runChoose ag (calls ++ [c])).epsilon ∧
    (QL.runChoose ag (calls ++ [c])).temperature ≤
      (QL.runChoose ag calls).temperature ∧
    ag.min_temperature ≤ (QL.runChoose ag (calls ++ [c])).temperature := by
  obtain ⟨f1, f2, f3, f4, f5, f6⟩ :=
    runChoose_invariant calls ag h1 h2 h3 h4 h5 h6
  rw [runChoose_append_single]
  set b := QL.runChoose ag calls with hb
  have heps := decay_between ag.min_epsilon b.epsilon b.epsilon_decay h1 f5
    (by rw [f2]; exact h3)
  have htmp := decay_between ag.min_temperature b.temperature
    b.temperature_decay h4 f6 (by rw [f4]; exact h6)
  exact ⟨by simp only [QL.decayStep]; rw [f1]; exact heps.2,
    by simp only [QL.decayStep]; rw [f1]; exact heps.1,
    by simp only [QL.decayStep]; rw [f3]; exact htmp.2,
    by simp only [QL.decayStep]; rw [f3]; exact htmp.1⟩

/-- Witness for C5: the default configuration (ε = 0.2 with floor 0.01,
τ = 1 with floor 0.1, both decays 0.995) satisfies the bounds around a
first concrete choose_action call. -/
theorem epsilon_temperature_monotone_witness :
    (0 ≤ QL.sampleAgent.min_epsilon ∧
      QL.sampleAgent.min_epsilon ≤ QL.sampleAgent.epsilon ∧
      QL.sampleAgent.epsilon_decay ≤ 1 ∧
      0 ≤ QL.sampleAgent.min_temperature ∧
      QL.sampleAgent.min_temperature ≤ QL.sampleAgent.temperature ∧
      QL.sampleAgent.temperature_decay ≤ 1) ∧
    ((QL.runChoose QL.sampleAgent ([] ++ [(QL.sampleState, 0, 0, 0)])).epsilon ≤
        (QL.runChoose QL.sampleAgent []).epsilon ∧
      QL.sampleAgent.min_epsilon ≤
        (QL.runChoose QL.sampleAgent ([] ++ [(QL.sampleState, 0, 0, 0)])).epsilon ∧
      (QL.runChoose QL.sampleAgent
          ([] ++ [(QL.sampleState, 0, 0, 0)])).temperature ≤
        (QL.runChoose QL.sampleAgent []).temperature ∧
      QL.sampleAgent.min_temperature ≤
        (QL.runChoose QL.sampleAgent
          ([] ++ [(QL.sampleState, 0, 0, 0)])).temperature) :=
  ⟨⟨by norm_num [QL.sampleAgent, QL.mkAgent],
      by norm_num [QL.sampleAgent, QL.mkAgent],
      by norm_num [QL.sampleAgent, QL.mkAgent],
      by norm_num [QL.sampleAgent, QL.mkAgent],
      by norm_num [QL.sampleAgent, QL.mkAgent],
      by norm_num [QL.sampleAgent, QL.mkAgent]⟩,
    epsilon_temperature_monotone QL.sampleAgent [] (QL.sampleState, 0, 0, 0)
      (by norm_num [QL.sampleAgent, QL.mkAgent])
      (by norm_num [QL.sampleAgent, QL.mkAgent])
      (by norm_num [QL.sampleAgent, QL.mkAgent])
      (by norm_num [QL.sampleAgent, QL.mkAgent])
      (by norm_num [QL.sampleAgent, QL.mkAgent])
      (by norm_num [QL.sampleAgent, QL.mkAgent])⟩

/-- Helper for C2: the inner loop over a lane's vehicles subtracting 0.01
times each waiting time over 30 equals the accumulator plus the sum of the
corresponding per-vehicle terms. -/
theorem inner_wait_loop (vs : List QL.Vehicle) (a : ℚ) :
    vs.foldl (fun b v =>
        if v.waitingTime > 30 then b - v.waitingTime * (1/100) else b) a =
      a + (vs.map (fun v =>
        if v.waitingTime > 30 then -(1/100) * v.waitingTime else 0)).sum := by
  induction vs generalizing a with
  | nil => simp
  | cons v rest ih =>
    simp only [List.foldl_cons, List.map_cons, List.sum_cons, ih]
    by_cases h : v.waitingTime > 30
    · simp [h]; ring
    · simp [h]

/-- Helper for C2: the first lane loop of get_reward (stall and long-wait
penalties) as an accumulator plus a per-lane sum. -/
theorem lane_loop1 (env : QL.Env) (lanes : List String) (a : ℚ) :
    lanes.foldl (fun acc lane =>
        (env.laneVehicles lane).foldl (fun b v =>
          if v.waitingTime > 30 then b - v.waitingTime * (1/100) else b)
          (acc - (((env.laneVehicles lane).filter
              (fun v => decide (v.speed < 1/10))).length : ℚ) * (1/10))) a =
      a + (lanes.map (fun lane =>
        -(1/10) * (((env.laneVehicles lane).filter
            (fun v => decide (v.speed < 1/10))).length : ℚ)
          + ((env.laneVehicles lane).map (fun v =>
              if v.waitingTime > 30 then -(1/100) * v.waitingTime else 0)).sum)).sum := by
  induction lanes generalizing a with
  | nil => simp
  | cons lane rest ih =>
    rw [List.foldl_cons, ih, inner_wait_loop]
    simp only [List.map_cons, List.sum_cons]
    ring

/-- Helper for C2: the throughput lane loop of get_reward as an
accumulator plus a per-lane sum. -/
theorem lane_loop2 (env : QL.Env) (lanes : List String) (a : ℚ) :
    lanes.foldl (fun acc lane =>
        acc + (env.laneVehicleNumber lane : ℚ) * (2/10)) a =
      a + (lanes.map (fun lane =>
        (2/10) * (env.laneVehicleNumber lane : ℚ))).sum := by
  induction lanes generalizing a with
  | nil => simp
  | cons lane rest ih =>
    rw [List.foldl_cons, ih]
    simp only [List.map_cons, List.sum_cons]
    ring

/-- Helper for C2: two per-lane sums over the same lane list combine into
one. -/
theorem sum_split (f g : String → ℚ) (lanes : List String) :
    (lanes.map f).sum + (lanes.map g).sum =
      (lanes.map (fun l => f l + g l)).sum := by
  induction lanes with
  | nil => simp
  | cons l rest ih =>
    simp only [List.map_cons, List.sum_cons, ← ih]
    ring

/-- C2: for every agent state and telemetry snapshot, get_reward equals
the specification formula: the sum over controlled lanes of (−0.1 times
the stalled-vehicle count, −0.01 times each waiting time exceeding 30,
+0.2 times the lane's vehicle-throughput count), plus a flat −0.5 exactly
when the step counter is below 10. -/
theorem get_reward_eq_rewardSpec (env : QL.Env)
    (ag : QL.TrafficLightQLearning) :
    QL.get_reward env ag = QL.rewardSpec env ag := by
  simp only [QL.get_reward, QL.rewardSpec]
  rw [lane_loop1, lane_loop2, zero_add, sum_split]
  by_cases h : ag.steps_since_last_change < 10
  · simp only [if_pos h]; ring
  · simp only [if_neg h]; ring

/-- Helper for C1: reading any in-range position of a replicated list
yields the replicated element. -/
theorem get_replicate_of_lt {α : Type} (n i : ℕ) (t : α) (h : i < n) :
    (List.replicate n t).get? i = some t := by
  simp [List.get?_eq_getElem?, List.getElem?_replicate, h]

/-- Helper for C1: a sample whose positions are all in range, drawn from a
buffer of identical transitions, is a batch of identical transitions. -/
theorem sampleBatch_replicate (n : ℕ) (t : QL.Transition) (idxs : List ℕ)
    (h : ∀ i ∈ idxs, i < n) :
    QL.sampleBatch (List.replicate n t) idxs = List.replicate idxs.length t := by
  induction idxs with
  | nil => rfl
  | cons i rest ih =>
    have hi : i < n := h i (List.mem_cons_self i rest)
    simp only [QL.sampleBatch, List.filterMap_cons, get_replicate_of_lt n i t hi,
      List.length_cons, List.replicate_succ]
    exact congrArg (t :: ·) (ih (fun j hj => h j (List.mem_cons_of_mem i hj)))

/-- Helper for C1: the first Q-learning update of the batch scenario, on
the empty table: Q(s,a) becomes 0 + 0.5 (1 + 0.9·0 − 0) = 1/2. -/
theorem applyUpdate_batch_start :
    QL.applyUpdate 1 (1/2) (9/10) [] QL.sampleTransition =
      [((QL.sampleState, 0), 1/2)] := by
  norm_num [QL.applyUpdate, QL.qlookup, QL.qset, QL.sampleTransition,
    QL.sampleState, List.find?, show List.range 1 = [0] from rfl]

/-- Helper for C1: each later update of the batch scenario compounds on
the table written by the previous ones: Q(s,a) = x becomes
x + 0.5 (1 + 0.9 x − x) = (19/20) x + 1/2. -/
theorem applyUpdate_batch_step (x : ℚ) :
    QL.applyUpdate 1 (1/2) (9/10) [((QL.sampleState, 0), x)]
        QL.sampleTransition =
      [((QL.sampleState, 0), (19/20) * x + 1/2)] := by
  norm_num [QL.applyUpdate, QL.qlookup, QL.qset, QL.sampleTransition,
    QL.sampleState, List.find?, show List.range 1 = [0] from rfl]
  ring

/-- Helper for C1: closed form of n compounding updates of the batch
scenario starting from Q(s,a) = x. -/
theorem foldl_batch_closed (n : ℕ) (x : ℚ) :
    (List.replicate n QL.sampleTransition).foldl
        (QL.applyUpdate 1 (1/2) (9/10)) [((QL.sampleState, 0), x)] =
      [((QL.sampleState, 0), (19/20)^n * x + 10 * (1 - (19/20)^n))] := by
  induction n generalizing x with
  | zero => norm_num
  | succ n ih =>
    rw [List.replicate_succ, List.foldl_cons, applyUpdate_batch_step, ih]
    refine congrArg (fun v => [((QL.sampleState, 0), v)]) ?_
    ring

/-- Helper for C1: the appended buffer of the batch scenario is 65
identical transitions. -/
theorem dequeAppend_batch :
    QL.dequeAppend QL.sampleAgentBatch.experience_size
        QL.sampleAgentBatch.experience QL.sampleTransition =
      List.replicate 65 QL.sampleTransition := by
  rw [show QL.sampleAgentBatch.experience =
      List.replicate 64 QL.sampleTransition from rfl]
  rw [show QL.sampleAgentBatch.experience_size = 2000 from rfl]
  rw [QL.dequeAppend, if_pos (by simp)]
  exact (List.replicate_succ' 64 QL.sampleTransition).symm

/-- Helper for C1: reading the singleton table. -/
theorem qlookup_single (v : ℚ) :
    QL.qlookup [((QL.sampleState, 0), v)] (QL.sampleState, 0) = v := by
  simp [QL.qlookup, List.find?]

/-- Helper for C1: the value of Q(s,a) after one update_q_table call on
the batch-scenario agent, for any valid without-replacement sample. -/
theorem batch_update_value (idxs : List ℕ) (h1 : idxs.length = 64)
    (h3 : ∀ i ∈ idxs, i < 65) :
    QL.qlookup (QL.update_q_table QL.sampleAgentBatch QL.sampleTransition
        idxs).q_table (QL.sampleState, 0) =
      10 * (1 - (19/20)^64) := by
  simp only [QL.update_q_table, dequeAppend_batch]
  rw [if_pos (by simp [show QL.sampleAgentBatch.batch_size = 64 from rfl])]
  rw [sampleBatch_replicate 65 QL.sampleTransition idxs h3, h1]
  rw [show QL.sampleAgentBatch.q_table = [] from rfl]
  rw [show QL.sampleAgentBatch.phases.length = 1 from rfl]
  rw [show QL.sampleAgentBatch.alpha = 1/2 from rfl]
  rw [show QL.sampleAgentBatch.gamma = 9/10 from rfl]
  rw [show (64 : ℕ) = 63 + 1 from rfl, List.replicate_succ, List.foldl_cons,
    applyUpdate_batch_start, foldl_batch_closed 63 (1/2), qlookup_single]
  norm_num [pow_succ]

/-- Counterexample to C1 as stated: with a buffer of 64 copies of
(s, a, r = 1, s), an empty Q-table, α = 1/2 and γ = 9/10, one
update_q_table call that triggers the batch (here with the concrete
without-replacement sample 0,…,63 of the 65-element appended buffer) does
not leave Q(s,a) = 1/2: the loop applies the 64 updates sequentially on
the shared table, so they compound instead of acting independently. -/
theorem batch_update_not_half :
    QL.qlookup (QL.update_q_table QL.sampleAgentBatch QL.sampleTransition
        (List.range 64)).q_table (QL.sampleState, 0) ≠ 1/2 := by
  rw [batch_update_value (List.range 64) (by simp)
    (fun i hi => by have := List.mem_range.mp hi; omega)]
  norm_num

/-- C1 amended: in the scenario of the claim (buffer of 64 copies of
(s, a, r = 1, s), empty Q-table, α = 1/2, γ = 9/10), a single
update_q_table call triggering the batch applies the tabular update to
the 64 sampled transitions sequentially, each seeing the value written by
the previous one, so for every valid without-replacement sample of 64
positions Q(s,a) ends at 10 (1 − (19/20)^64) ≈ 9.63 — the value 1/2 is
only what the first of the 64 updates writes. -/
theorem batch_update_compounds (idxs : List ℕ) (h1 : idxs.length = 64)
    (h2 : idxs.Nodup) (h3 : ∀ i ∈ idxs, i < 65) :
    QL.qlookup (QL.update_q_table QL.sampleAgentBatch QL.sampleTransition
        idxs).q_table (QL.sampleState, 0) =
      10 * (1 - (19/20)^64) :=
  batch_update_value idxs h1 h3

/-- Witness for the amended C1: the sample 0,…,63 is a valid
without-replacement batch and yields the compounded value. -/
theorem batch_update_compounds_witness :
    (List.range 64).length = 64 ∧ (List.range 64).Nodup ∧
    (∀ i ∈ List.range 64, i < 65) ∧
    QL.qlookup (QL.update_q_table QL.sampleAgentBatch QL.sampleTransition
        (List.range 64)).q_table (QL.sampleState, 0) =
      10 * (1 - (19/20)^64) :=
  ⟨by simp, List.nodup_range 64,
    fun i hi => by have := List.mem_range.mp hi; omega,
    batch_update_compounds (List.range 64) (by simp) (List.nodup_range 64)
      (fun i hi => by have := List.mem_range.mp hi; omega)⟩
